import Mathlib

/-!
Shallow embedding of the email spoof detection engine:
`models` (Email, AnalysisResult, GetDomain, header accessors),
`detector` (Rules, the six structural checks, checkSPF, checkDKIM,
checkDMARC, Analyze).  DNS TXT resolution (`net.LookupTXT`) is modelled
as an explicit environment `Dns : String → Option (List String)`
(`none` = lookup error), threaded through every function that performs
a lookup in the source.  Go strings are modelled as Lean `String`s with
hand-rolled executable helpers for `strings.Split`, `strings.Contains`,
`strings.HasPrefix`, `strings.Replace(·,·,·,1)` and `strings.ToLower`.
-/

/-- `strings.HasPrefix` on character lists. -/
def startsWithList : List Char → List Char → Bool
  | [], _ => true
  | _ :: _, [] => false
  | a :: as, b :: bs => a == b && startsWithList as bs

/-- `strings.Contains` on character lists: `containsSub needle hay`. -/
def containsSub (needle : List Char) : List Char → Bool
  | [] => startsWithList needle []
  | h :: t => startsWithList needle (h :: t) || containsSub needle t

/-- `strings.HasPrefix s p`. -/
def strStartsWith (s p : String) : Bool :=
  startsWithList p.data s.data

/-- `strings.Contains s sub`. -/
def strContains (s sub : String) : Bool :=
  containsSub sub.data s.data

/-- `strings.Split s "@"` (single-character separator). -/
def splitOnAt : List Char → List (List Char)
  | [] => [[]]
  | h :: t =>
    let r := splitOnAt t
    if h == '@' then [] :: r
    else
      match r with
      | [] => [[h]]
      | x :: xs => (h :: x) :: xs

/-- `strings.Replace s (String.singleton c) new 1`: replace the first
occurrence of the character `c` by the string `new`. -/
def replaceFirst (c : Char) (new : List Char) : List Char → List Char
  | [] => []
  | h :: t => if h == c then new ++ t else h :: replaceFirst c new t

/-- `strings.Replace` specialised to the uses in the source (old is a
single character), on `String`. -/
def strReplaceFirst (s : String) (c : Char) (new : String) : String :=
  String.mk (replaceFirst c new.data s.data)

/-- `strings.ToLower` (ASCII case folding suffices for the fixed
pattern list the source compares against). -/
def strToLower (s : String) : String :=
  String.mk (s.data.map Char.toLower)

/-- `mail.Address`: display name and address string. -/
structure EmailAddress where
  Name : String
  Address : String
deriving DecidableEq, Repr

/-- `models.Email`.  The Go `*mail.Address` fields are `Option`s;
`Headers map[string][]string` is an association list with unique keys,
looked up by exact name. -/
structure Email where
  From : Option EmailAddress
  ReplyTo : Option EmailAddress
  ReturnPath : String
  MessageID : String
  Subject : String
  Body : String
  Headers : List (String × List String)
deriving Repr

/-- `models.AnalysisResult`. -/
structure AnalysisResult where
  IsSpoofed : Bool
  Reasons : List String
  Score : Nat
deriving DecidableEq, Repr

/-- `models.GetDomain`: split the address on `"@"`; empty string unless
exactly two parts; nil address gives the empty string. -/
def GetDomain : Option EmailAddress → String
  | none => ""
  | some a =>
    match splitOnAt a.Address.data with
    | [_, d] => String.mk d
    | _ => ""

/-- Go map lookup `e.Headers[name]` (`none` when the key is absent). -/
def Email.headerLookup (e : Email) (name : String) : Option (List String) :=
  (e.Headers.find? (fun p => p.1 == name)).map Prod.snd

/-- `models.Email.GetAllHeaderValues` (a missing key is the nil slice). -/
def Email.GetAllHeaderValues (e : Email) (name : String) : List String :=
  (e.headerLookup name).getD []

/-- `models.Email.HasHeader`. -/
def Email.HasHeader (e : Email) (name : String) : Bool :=
  (e.headerLookup name).isSome

/-- `models.Email.GetHeaderValue`: first value, or `""` when the key is
absent or its value list is empty. -/
def Email.GetHeaderValue (e : Email) (name : String) : String :=
  match e.headerLookup name with
  | none => ""
  | some [] => ""
  | some (v :: _) => v

/-- The DNS TXT environment: `net.LookupTXT` as a pure map; `none`
models a lookup error. -/
def Dns := String → Option (List String)

/-- `detector.isSimilarDomain`. -/
def isSimilarDomain (domain1 domain2 : String) : Bool :=
  if domain1 != domain2 && strContains domain1 (strReplaceFirst domain2 '.' "") then
    true
  else
    let typos : List String :=
      [ strReplaceFirst domain2 '.' "-"
      , strReplaceFirst domain2 '.' ""
      , "mail-" ++ domain2
      , domain2 ++ "-secure"
      , strReplaceFirst domain2 'm' "rn" ]
    typos.any (fun typo => domain1 == typo)

/-- `detector.checkFromReplyToDomainMismatch`. -/
def checkFromReplyToDomainMismatch (email : Email) : Bool × String :=
  match email.From, email.ReplyTo with
  | none, _ => (false, "")
  | _, none => (false, "")
  | some _, some _ =>
    let fromDomain := GetDomain email.From
    let replyToDomain := GetDomain email.ReplyTo
    if fromDomain != "" && replyToDomain != "" && fromDomain != replyToDomain then
      (true, "From domain (" ++ fromDomain ++ ") doesn't match Reply-To domain (" ++ replyToDomain ++ ")")
    else
      (false, "")

/-- `detector.checkFromReturnPathDomainMismatch`. -/
def checkFromReturnPathDomainMismatch (email : Email) : Bool × String :=
  match email.From with
  | none => (false, "")
  | some _ =>
    if email.ReturnPath == "" then (false, "")
    else
      let fromDomain := GetDomain email.From
      match splitOnAt email.ReturnPath.data with
      | [_, d] =>
        let returnPathDomain := String.mk d
        if fromDomain != "" && returnPathDomain != "" && fromDomain != returnPathDomain then
          (true, "From domain (" ++ fromDomain ++ ") doesn't match Return-Path domain (" ++ returnPathDomain ++ ")")
        else
          (false, "")
      | _ => (false, "")

/-- `detector.checkMissingSPF` (fail-open on lookup error). -/
def checkMissingSPF (dns : Dns) (email : Email) : Bool × String :=
  match email.From with
  | none => (false, "")
  | some _ =>
    let fromDomain := GetDomain email.From
    if fromDomain == "" then (false, "")
    else
      match dns fromDomain with
      | none => (false, "")
      | some txtRecords =>
        if txtRecords.any (fun record => strStartsWith record "v=spf1") then (false, "")
        else (true, "Domain " ++ fromDomain ++ " doesn't have an SPF record")

/-- The fixed reference set of commonly spoofed domains, in source
order. -/
def commonDomains : List String :=
  [ "gmail.com", "yahoo.com", "outlook.com", "hotmail.com"
  , "microsoft.com", "apple.com", "amazon.com", "facebook.com"
  , "paypal.com", "wellsfargo.com", "bankofamerica.com", "chase.com" ]

/-- The loop body of `checkSuspiciousFromDomain`: first reference domain
that the From domain is a lookalike of. -/
def findLookalike (fromDomain : String) : List String → Option String
  | [] => none
  | d :: ds =>
    if fromDomain != d && isSimilarDomain fromDomain d then some d
    else findLookalike fromDomain ds

/-- `detector.checkSuspiciousFromDomain`. -/
def checkSuspiciousFromDomain (email : Email) : Bool × String :=
  match email.From with
  | none => (false, "")
  | some _ =>
    let fromDomain := GetDomain email.From
    if fromDomain == "" then (false, "")
    else
      match findLookalike fromDomain commonDomains with
      | some d => (true, "From domain (" ++ fromDomain ++ ") looks similar to " ++ d)
      | none => (false, "")

/-- `detector.checkMultipleFromHeaders`. -/
def checkMultipleFromHeaders (email : Email) : Bool × String :=
  if (email.GetAllHeaderValues "From").length > 1 then
    (true, "Email contains multiple From headers")
  else
    (false, "")

/-- The fixed suspicious substrings scanned in `Received` headers. -/
def suspiciousPatterns : List String :=
  ["unknown", "localhost", "127.0.0.1", "192.168.", "10.0.", "172.16."]

/-- The nested loop of `checkSuspiciousReceivedChain`: first suspicious
pattern contained in any (case-folded) header, headers outermost. -/
def findSuspicious : List String → Option String
  | [] => none
  | h :: t =>
    let hl := strToLower h
    match suspiciousPatterns.find? (fun pattern => strContains hl pattern) with
    | some pattern => some pattern
    | none => findSuspicious t

/-- `detector.checkSuspiciousReceivedChain`. -/
def checkSuspiciousReceivedChain (email : Email) : Bool × String :=
  let receivedHeaders := email.GetAllHeaderValues "Received"
  if receivedHeaders.length == 0 then
    (true, "Email doesn't have any Received headers")
  else
    match findSuspicious receivedHeaders with
    | some pattern => (true, "Suspicious pattern found in Received headers: " ++ pattern)
    | none => (false, "")

/-- `detector.Rule`. -/
structure Rule where
  Name : String
  Description : String
  Weight : Nat
  CheckFunc : Email → Bool × String

/-- `detector.Rules()`, with the DNS environment threaded to the one
rule that performs a lookup. -/
def Rules (dns : Dns) : List Rule :=
  [ { Name := "inconsistent_from_reply_to"
    , Description := "From and Reply-To domains don't match"
    , Weight := 3
    , CheckFunc := checkFromReplyToDomainMismatch }
  , { Name := "inconsistent_from_return_path"
    , Description := "From and Return-Path domains don't match"
    , Weight := 3
    , CheckFunc := checkFromReturnPathDomainMismatch }
  , { Name := "missing_spf"
    , Description := "Domain doesn't have SPF record"
    , Weight := 2
    , CheckFunc := checkMissingSPF dns }
  , { Name := "suspicious_from_domain"
    , Description := "From domain is suspicious (lookalike domain)"
    , Weight := 4
    , CheckFunc := checkSuspiciousFromDomain }
  , { Name := "multiple_from_headers"
    , Description := "Email contains multiple From headers"
    , Weight := 5
    , CheckFunc := checkMultipleFromHeaders }
  , { Name := "suspicious_received_chain"
    , Description := "Suspicious Received headers chain"
    , Weight := 2
    , CheckFunc := checkSuspiciousReceivedChain } ]

/-- `detector.checkSPF` (first TXT record with prefix `v=spf1`; policy
read off the qualifier substrings in order `-all`, `~all`, `?all`). -/
def checkSPF (dns : Dns) (domain : String) : String :=
  match dns domain with
  | none => "SPF lookup failed for domain " ++ domain
  | some txtRecords =>
    let spfRecord :=
      (txtRecords.find? (fun record => strStartsWith record "v=spf1")).getD ""
    if spfRecord == "" then
      "Domain " ++ domain ++ " doesn't have an SPF record"
    else if strContains spfRecord "-all" then ""
    else if strContains spfRecord "~all" then ""
    else if strContains spfRecord "?all" then
      "Domain " ++ domain ++ " has a neutral SPF policy"
    else
      "Domain " ++ domain ++ " has a permissive SPF policy"

/-- `detector.checkDKIM` (presence of the header, then substring
containment of the From domain in the first header value). -/
def checkDKIM (email : Email) (domain : String) : String :=
  if !email.HasHeader "DKIM-Signature" then
    "Email doesn't have a DKIM signature"
  else if !strContains (email.GetHeaderValue "DKIM-Signature") domain then
    "DKIM signature domain doesn't match From domain"
  else
    ""

/-- `detector.checkDMARC` (first TXT record of `_dmarc.<domain>` with
prefix `v=DMARC1`; policy read off `p=reject`, `p=quarantine`,
`p=none`). -/
def checkDMARC (dns : Dns) (domain : String) : String :=
  match dns ("_dmarc." ++ domain) with
  | none => "DMARC lookup failed for domain " ++ domain
  | some txtRecords =>
    let dmarcRecord :=
      (txtRecords.find? (fun record => strStartsWith record "v=DMARC1")).getD ""
    if dmarcRecord == "" then
      "Domain " ++ domain ++ " doesn't have a DMARC record"
    else if strContains dmarcRecord "p=reject" then ""
    else if strContains dmarcRecord "p=quarantine" then ""
    else if strContains dmarcRecord "p=none" then
      "Domain " ++ domain ++ " has a monitoring-only DMARC policy"
    else
      "Domain " ++ domain ++ " has an unknown DMARC policy"

/-- `detector.SpoofDetector`. -/
structure SpoofDetector where
  rules : List Rule

/-- `detector.NewSpoofDetector`. -/
def NewSpoofDetector (dns : Dns) : SpoofDetector :=
  { rules := Rules dns }

/-- The rule-application loop body of `Analyze`. -/
def stepRule (email : Email) (acc : AnalysisResult) (rule : Rule) : AnalysisResult :=
  let r := rule.CheckFunc email
  if r.1 then
    { acc with Score := acc.Score + rule.Weight, Reasons := acc.Reasons ++ [r.2] }
  else
    acc

/-- The SPF/DKIM/DMARC block of `Analyze` (guarded by a present From
address with a non-empty domain; fixed weights 3, 3, 2). -/
def applyAuth (dns : Dns) (email : Email) (acc : AnalysisResult) : AnalysisResult :=
  match email.From with
  | none => acc
  | some _ =>
    let fromDomain := GetDomain email.From
    if fromDomain == "" then acc
    else
      let spfResult := checkSPF dns fromDomain
      let acc1 := if spfResult != "" then
        { acc with Score := acc.Score + 3, Reasons := acc.Reasons ++ [spfResult] } else acc
      let dkimResult := checkDKIM email fromDomain
      let acc2 := if dkimResult != "" then
        { acc1 with Score := acc1.Score + 3, Reasons := acc1.Reasons ++ [dkimResult] } else acc1
      let dmarcResult := checkDMARC dns fromDomain
      if dmarcResult != "" then
        { acc2 with Score := acc2.Score + 2, Reasons := acc2.Reasons ++ [dmarcResult] } else acc2

/-- `detector.SpoofDetector.Analyze`. -/
def SpoofDetector.Analyze (d : SpoofDetector) (dns : Dns) (email : Email) : AnalysisResult :=
  let r0 : AnalysisResult := { IsSpoofed := false, Reasons := [], Score := 0 }
  let r1 := d.rules.foldl (stepRule email) r0
  let r2 := applyAuth dns email r1
  if r2.Score ≥ 5 then { r2 with IsSpoofed := true } else r2

/-- `Analyze` on the detector built by `NewSpoofDetector`. -/
def Analyze (dns : Dns) (email : Email) : AnalysisResult :=
  (NewSpoofDetector dns).Analyze dns email

/-! ### Declarative characterizations of the two passes of `Analyze` -/

/-- Total weight contributed by the triggered rules of a rule list. -/
def ruleScore (email : Email) (rules : List Rule) : Nat :=
  (rules.map (fun rule => if (rule.CheckFunc email).1 then rule.Weight else 0)).sum

/-- Reasons of the triggered rules of a rule list, in list order. -/
def ruleReasons (email : Email) (rules : List Rule) : List String :=
  rules.filterMap
    (fun rule => if (rule.CheckFunc email).1 then some (rule.CheckFunc email).2 else none)

/-- The guard of the authenticity block: a From address is present and
its domain is non-empty. -/
def authRuns (email : Email) : Bool :=
  email.From.isSome && GetDomain email.From != ""

/-- Total weight contributed by the authenticity checks. -/
def authScore (dns : Dns) (email : Email) : Nat :=
  if authRuns email then
    (if checkSPF dns (GetDomain email.From) != "" then 3 else 0) +
      (if checkDKIM email (GetDomain email.From) != "" then 3 else 0) +
      (if checkDMARC dns (GetDomain email.From) != "" then 2 else 0)
  else 0

/-- Non-empty authenticity findings, in the order SPF, DKIM, DMARC. -/
def authReasons (dns : Dns) (email : Email) : List String :=
  if authRuns email then
    [ checkSPF dns (GetDomain email.From)
    , checkDKIM email (GetDomain email.From)
    , checkDMARC dns (GetDomain email.From) ].filter (fun s => s != "")
  else []

theorem foldl_stepRule (email : Email) (rules : List Rule) (acc : AnalysisResult) :
    rules.foldl (stepRule email) acc =
      { IsSpoofed := acc.IsSpoofed
      , Reasons := acc.Reasons ++ ruleReasons email rules
      , Score := acc.Score + ruleScore email rules } := by
  induction rules generalizing acc with
  | nil => simp [ruleReasons, ruleScore]
  | cons r rs ih =>
    simp only [List.foldl_cons, ih, ruleReasons, ruleScore, List.filterMap_cons,
      List.map_cons, List.sum_cons, stepRule]
    by_cases h : (r.CheckFunc email).1
    · simp [h, Nat.add_assoc]
    · simp [h]

theorem applyAuth_eq (dns : Dns) (email : Email) (acc : AnalysisResult) :
    applyAuth dns email acc =
      { IsSpoofed := acc.IsSpoofed
      , Reasons := acc.Reasons ++ authReasons dns email
      , Score := acc.Score + authScore dns email } := by
  unfold applyAuth authReasons authScore authRuns
  cases hF : email.From with
  | none => simp
  | some a =>
    simp only [Option.isSome_some, Bool.true_and]
    by_cases hd : GetDomain (some a) = ""
    · simp [hd]
    · by_cases h1 : checkSPF dns (GetDomain (some a)) = "" <;>
      by_cases h2 : checkDKIM email (GetDomain (some a)) = "" <;>
      by_cases h3 : checkDMARC dns (GetDomain (some a)) = "" <;>
      simp [hd, h1, h2, h3, List.filter_cons, Nat.add_assoc, List.append_assoc]

theorem SpoofDetector_Analyze_eq (d : SpoofDetector) (dns : Dns) (email : Email) :
    d.Analyze dns email =
      { IsSpoofed := decide (5 ≤ ruleScore email d.rules + authScore dns email)
      , Reasons := ruleReasons email d.rules ++ authReasons dns email
      , Score := ruleScore email d.rules + authScore dns email } := by
  unfold SpoofDetector.Analyze
  simp only [foldl_stepRule, applyAuth_eq, List.nil_append, Nat.zero_add, ge_iff_le]
  by_cases h : 5 ≤ ruleScore email d.rules + authScore dns email
  · simp [h]
  · simp [h]

theorem Analyze_eq (dns : Dns) (email : Email) :
    Analyze dns email =
      { IsSpoofed := decide (5 ≤ ruleScore email (Rules dns) + authScore dns email)
      , Reasons := ruleReasons email (Rules dns) ++ authReasons dns email
      , Score := ruleScore email (Rules dns) + authScore dns email } := by
  unfold Analyze NewSpoofDetector
  exact SpoofDetector_Analyze_eq _ dns email

/-! ### C1 -/

/-- C1: for every DNS environment and input email, the verdict field of
the result of `Analyze` holds exactly when the score field is at least
5 — in particular a result with score 4 has `IsSpoofed = false` and one
with score 5 has `IsSpoofed = true`. -/
theorem analyze_isSpoofed_iff_score_ge_5 (dns : Dns) (email : Email) :
    (Analyze dns email).IsSpoofed = true ↔ 5 ≤ (Analyze dns email).Score := by
  rw [Analyze_eq]
  simp

/-! ### C2 -/

/-- C2 (counterexample): contrary to the claim, the lookalike predicate
rejects the pair candidate `"paypal-secure.com"`, reference
`"paypal.com"`: no transform of the reference produces the candidate
(the `"-secure"` transform yields `"paypal.com-secure"`), and the
candidate does not contain `"paypalcom"`. -/
theorem isSimilarDomain_paypal_secure_com_false :
    isSimilarDomain "paypal-secure.com" "paypal.com" = false := by decide

/-- C2 (amended): the lookalike predicate accepts the candidate
actually produced by the `reference ++ "-secure"` transform,
`"paypal.com-secure"`, against the reference `"paypal.com"`. -/
theorem isSimilarDomain_paypal_com_secure_true :
    isSimilarDomain "paypal.com-secure" "paypal.com" = true := by decide

/-! ### C6 -/

/-- C6: the reason list of `Analyze` is the reasons of the triggered
structural rules in registration order (From/Reply-To mismatch,
From/Return-Path mismatch, missing SPF, suspicious From domain,
multiple From headers, suspicious Received chain), followed — when a
From address with a non-empty domain is present — by the SPF, DKIM and
DMARC findings in that order, each present iff non-empty. -/
theorem analyze_reasons_order (dns : Dns) (email : Email) :
    (Analyze dns email).Reasons =
      ([ checkFromReplyToDomainMismatch email
       , checkFromReturnPathDomainMismatch email
       , checkMissingSPF dns email
       , checkSuspiciousFromDomain email
       , checkMultipleFromHeaders email
       , checkSuspiciousReceivedChain email ].filterMap
          (fun r => if r.1 then some r.2 else none)) ++
      (if email.From.isSome && GetDomain email.From != "" then
        [ checkSPF dns (GetDomain email.From)
        , checkDKIM email (GetDomain email.From)
        , checkDMARC dns (GetDomain email.From) ].filter (fun s => s != "")
       else []) := by
  rw [Analyze_eq]
  simp only [ruleReasons, Rules, authReasons, authRuns]
  rfl

/-! ### C3 -/

theorem str_append_ne_empty (s t : String) (h : s.data ≠ []) : s ++ t ≠ "" := by
  intro he
  apply h
  have hd := congrArg String.data he
  rw [String.data_append] at hd
  exact (List.append_eq_nil.mp hd).1

/-- C3: when the TXT lookup succeeds and the selected SPF record (the
first TXT record with prefix `v=spf1`) contains both `-all` and `~all`,
`checkSPF` resolves it with the `-all` behavior: no finding. -/
theorem checkSPF_dash_all_precedence (dns : Dns) (domain : String)
    (records : List String) (r : String)
    (hrec : dns domain = some records)
    (hfind : records.find? (fun record => strStartsWith record "v=spf1") = some r)
    (hdash : strContains r "-all" = true)
    (htilde : strContains r "~all" = true) :
    checkSPF dns domain = "" := by
  have hpre : strStartsWith r "v=spf1" = true := by
    have h := List.find?_some hfind
    simpa using h
  have hne : r ≠ "" := by
    intro h
    rw [h] at hpre
    exact absurd hpre (by decide)
  unfold checkSPF
  rw [hrec]
  simp [hfind, hne, hdash]

/-- A DNS environment publishing one SPF record containing both `-all`
and `~all` for a single domain. -/
def dnsBothQual : Dns := fun d =>
  if d = "spfboth.test" then some ["v=spf1 ~all -all"] else none

/-- Witness for C3 at the concrete record `"v=spf1 ~all -all"`. -/
theorem checkSPF_dash_all_precedence_witness :
    checkSPF dnsBothQual "spfboth.test" = "" :=
  checkSPF_dash_all_precedence dnsBothQual "spfboth.test" ["v=spf1 ~all -all"]
    "v=spf1 ~all -all" (by decide) (by decide) (by decide) (by decide)

/-! ### C4 -/

/-- C4: on a DNS TXT lookup failure for the (non-empty) From domain,
the structural missing-SPF rule does not trigger (fail-open, score
contribution 0) while the authenticity SPF check produces the finding
`"SPF lookup failed for domain D"`, which contributes its fixed weight
3 to the score of `Analyze`. -/
theorem spf_lookup_failure_asymmetry (dns : Dns) (email : Email) (a : EmailAddress)
    (hF : email.From = some a)
    (hd : GetDomain email.From ≠ "")
    (hdns : dns (GetDomain email.From) = none) :
    checkMissingSPF dns email = (false, "") ∧
    checkSPF dns (GetDomain email.From) =
      "SPF lookup failed for domain " ++ GetDomain email.From ∧
    (Analyze dns email).Score =
      ruleScore email (Rules dns) + 3
        + (if checkDKIM email (GetDomain email.From) != "" then 3 else 0)
        + (if checkDMARC dns (GetDomain email.From) != "" then 2 else 0) := by
  have hspf : checkSPF dns (GetDomain email.From) =
      "SPF lookup failed for domain " ++ GetDomain email.From := by
    unfold checkSPF
    rw [hdns]
  refine ⟨?_, hspf, ?_⟩
  · unfold checkMissingSPF
    rw [hF] at hd hdns ⊢
    simp [hd, hdns]
  · rw [Analyze_eq]
    have hruns : authRuns email = true := by
      unfold authRuns
      rw [hF] at hd ⊢
      simp [hd]
    show ruleScore email (Rules dns) + authScore dns email = _
    unfold authScore
    rw [hruns, if_pos rfl, hspf]
    have hne : ("SPF lookup failed for domain " ++ GetDomain email.From != "") = true := by
      simp only [bne_iff_ne, ne_eq]
      exact str_append_ne_empty _ _ (by decide)
    rw [hne]
    simp [Nat.add_assoc]

/-- A DNS environment in which every lookup fails. -/
def dnsDown : Dns := fun _ => none

/-- A minimal email whose From address has the domain `faildns.test`. -/
def emailFailDns : Email :=
  { From := some { Name := "", Address := "user@faildns.test" }
  , ReplyTo := none
  , ReturnPath := ""
  , MessageID := ""
  , Subject := ""
  , Body := ""
  , Headers := [("From", ["user@faildns.test"])] }

/-- Witness for C4 on `emailFailDns` under the failing DNS environment. -/
theorem spf_lookup_failure_asymmetry_witness :
    checkMissingSPF dnsDown emailFailDns = (false, "") ∧
    checkSPF dnsDown (GetDomain emailFailDns.From) =
      "SPF lookup failed for domain " ++ GetDomain emailFailDns.From ∧
    (Analyze dnsDown emailFailDns).Score =
      ruleScore emailFailDns (Rules dnsDown) + 3
        + (if checkDKIM emailFailDns (GetDomain emailFailDns.From) != "" then 3 else 0)
        + (if checkDMARC dnsDown (GetDomain emailFailDns.From) != "" then 2 else 0) :=
  spf_lookup_failure_asymmetry dnsDown emailFailDns
    { Name := "", Address := "user@faildns.test" } rfl (by decide) rfl

/-! ### C5 -/

/-- C5: `GetDomain` fails closed — it returns the empty string on a nil
address and whenever splitting the address on `"@"` does not yield
exactly two parts; being a total Lean function it never raises. -/
theorem GetDomain_fails_closed (addr : Option EmailAddress) :
    (addr = none → GetDomain addr = "") ∧
    (∀ a : EmailAddress, addr = some a →
      (splitOnAt a.Address.data).length ≠ 2 → GetDomain addr = "") := by
  constructor
  · intro h
    rw [h]
    rfl
  · intro a h hlen
    rw [h]
    simp only [GetDomain]
    split
    · rename_i head d heq
      exact absurd (by rw [heq]; rfl) hlen
    · rfl

/-- Witness for C5 at a nil address, an address without `"@"`, and an
address with two `"@"` characters. -/
theorem GetDomain_fails_closed_witness :
    GetDomain none = "" ∧
    GetDomain (some { Name := "", Address := "nodomain" }) = "" ∧
    GetDomain (some { Name := "", Address := "a@b@c" }) = "" :=
  ⟨(GetDomain_fails_closed none).1 rfl,
   (GetDomain_fails_closed (some { Name := "", Address := "nodomain" })).2
     { Name := "", Address := "nodomain" } rfl (by decide),
   (GetDomain_fails_closed (some { Name := "", Address := "a@b@c" })).2
     { Name := "", Address := "a@b@c" } rfl (by decide)⟩

/-! ### C7 -/

theorem checkFromReplyTo_false_of_noFromDomain (email : Email)
    (h : email.From = none ∨ GetDomain email.From = "") :
    (checkFromReplyToDomainMismatch email).1 = false := by
  unfold checkFromReplyToDomainMismatch
  rcases h with h | h
  · simp [h]
  · cases hF : email.From with
    | none => simp
    | some a =>
      rw [hF] at h
      cases hR : email.ReplyTo with
      | none => simp
      | some b => simp [h]

theorem checkFromReturnPath_false_of_noFromDomain (email : Email)
    (h : email.From = none ∨ GetDomain email.From = "") :
    (checkFromReturnPathDomainMismatch email).1 = false := by
  unfold checkFromReturnPathDomainMismatch
  rcases h with h | h
  · simp [h]
  · cases hF : email.From with
    | none => simp
    | some a =>
      rw [hF] at h
      simp only [hF]
      split
      · rfl
      · split
        · simp [h]
        · rfl

theorem checkMissingSPF_false_of_noFromDomain (dns : Dns) (email : Email)
    (h : email.From = none ∨ GetDomain email.From = "") :
    (checkMissingSPF dns email).1 = false := by
  unfold checkMissingSPF
  rcases h with h | h
  · simp [h]
  · cases hF : email.From with
    | none => simp
    | some a =>
      rw [hF] at h
      simp [h]

theorem checkSuspiciousFromDomain_false_of_noFromDomain (email : Email)
    (h : email.From = none ∨ GetDomain email.From = "") :
    (checkSuspiciousFromDomain email).1 = false := by
  unfold checkSuspiciousFromDomain
  rcases h with h | h
  · simp [h]
  · cases hF : email.From with
    | none => simp
    | some a =>
      rw [hF] at h
      simp [h]

theorem authRuns_false_of_noFromDomain (email : Email)
    (h : email.From = none ∨ GetDomain email.From = "") :
    authRuns email = false := by
  unfold authRuns
  rcases h with h | h
  · simp [h]
  · simp [h]

/-- C7: when the From address is nil or its domain is empty (and the
Reply-To is nil or domainless), no domain-dependent rule and no
authenticity check contributes: the score and the reason list of
`Analyze` come only from the multiple-From-headers and suspicious
Received-chain rules. -/
theorem analyze_structural_only (dns : Dns) (email : Email)
    (h1 : email.From = none ∨ GetDomain email.From = "")
    (h2 : email.ReplyTo = none ∨ GetDomain email.ReplyTo = "") :
    (Analyze dns email).Score =
      (if (checkMultipleFromHeaders email).1 then 5 else 0) +
        (if (checkSuspiciousReceivedChain email).1 then 2 else 0) ∧
    (Analyze dns email).Reasons =
      [checkMultipleFromHeaders email, checkSuspiciousReceivedChain email].filterMap
        (fun r => if r.1 then some r.2 else none) := by
  have hA := authRuns_false_of_noFromDomain email h1
  have hr1 := checkFromReplyTo_false_of_noFromDomain email h1
  have hr2 := checkFromReturnPath_false_of_noFromDomain email h1
  have hr3 := checkMissingSPF_false_of_noFromDomain dns email h1
  have hr4 := checkSuspiciousFromDomain_false_of_noFromDomain email h1
  rw [Analyze_eq]
  constructor
  · show ruleScore email (Rules dns) + authScore dns email = _
    unfold authScore
    rw [hA]
    simp [ruleScore, Rules, hr1, hr2, hr3, hr4]
  · show ruleReasons email (Rules dns) ++ authReasons dns email = _
    unfold authReasons
    rw [hA]
    simp only [ruleReasons, Rules, hr1, hr2, hr3, hr4, Bool.false_eq_true, if_false,
      List.filterMap_cons, if_neg, ite_false, List.append_nil]
    rfl

/-- A From-less email carrying two `From` header values and no
`Received` header. -/
def emailNoFrom : Email :=
  { From := none
  , ReplyTo := none
  , ReturnPath := ""
  , MessageID := ""
  , Subject := ""
  , Body := ""
  , Headers := [("From", ["a@x.test", "b@y.test"])] }

/-- Witness for C7 on `emailNoFrom` under the failing DNS environment. -/
theorem analyze_structural_only_witness :
    (Analyze dnsDown emailNoFrom).Score =
      (if (checkMultipleFromHeaders emailNoFrom).1 then 5 else 0) +
        (if (checkSuspiciousReceivedChain emailNoFrom).1 then 2 else 0) ∧
    (Analyze dnsDown emailNoFrom).Reasons =
      [checkMultipleFromHeaders emailNoFrom, checkSuspiciousReceivedChain emailNoFrom].filterMap
        (fun r => if r.1 then some r.2 else none) :=
  analyze_structural_only dnsDown emailNoFrom (Or.inl rfl) (Or.inl rfl)

/-! ### C8 -/

/-- C8: the final score is independent of the order of the rule list —
a detector holding any permutation of the registered rules produces the
same `Score` as `Analyze`. -/
theorem analyze_score_rule_order_independent (dns : Dns) (email : Email)
    (rules : List Rule) (hp : rules.Perm (Rules dns)) :
    ((SpoofDetector.mk rules).Analyze dns email).Score = (Analyze dns email).Score := by
  have hs : ruleScore email rules = ruleScore email (Rules dns) :=
    List.Perm.sum_eq (hp.map _)
  rw [SpoofDetector_Analyze_eq, Analyze_eq]
  simp [hs]

/-- The registered rule list with its first two rules exchanged. -/
def RulesSwapped (dns : Dns) : List Rule :=
  match Rules dns with
  | r1 :: r2 :: rest => r2 :: r1 :: rest
  | l => l

/-- Witness for C8: the swapped rule list yields the same score on a
concrete email. -/
theorem analyze_score_rule_order_independent_witness :
    ((SpoofDetector.mk (RulesSwapped dnsDown)).Analyze dnsDown emailNoFrom).Score =
      (Analyze dnsDown emailNoFrom).Score :=
  analyze_score_rule_order_independent dnsDown emailNoFrom (RulesSwapped dnsDown)
    (List.Perm.swap _ _ _)

/-! ### C9 -/

/-- A DNS environment where `example.com` publishes `v=spf1 -all` and
`_dmarc.example.com` publishes `v=DMARC1; p=reject`. -/
def dnsGood : Dns := fun d =>
  if d = "example.com" then some ["v=spf1 -all"]
  else if d = "_dmarc.example.com" then some ["v=DMARC1; p=reject"]
  else none

/-- An email with identical From/Reply-To/Return-Path domains, a single
From header, an unsuspicious Received chain, and a DKIM-Signature value
containing the From domain. -/
def cleanEmail : Email :=
  { From := some { Name := "Alice", Address := "alice@example.com" }
  , ReplyTo := some { Name := "Alice", Address := "alice@example.com" }
  , ReturnPath := "alice@example.com"
  , MessageID := "<1@example.com>"
  , Subject := "hello"
  , Body := ""
  , Headers :=
      [ ("From", ["Alice <alice@example.com>"])
      , ("Received", ["from mail.example.com by mx.remote.example with ESMTP"])
      , ("DKIM-Signature", ["v=1; a=rsa-sha256; d=example.com; s=sel"]) ] }

/-- C9: on the clean scenario email — matching From/Reply-To/Return-Path
domains, one From header, benign Received chain, an SPF record with
`-all`, a DKIM-Signature containing the From domain, and a DMARC record
with `p=reject` — `Analyze` returns score 0, no reasons, and a
not-spoofed verdict. -/
theorem analyze_clean_email :
    Analyze dnsGood cleanEmail = { IsSpoofed := false, Reasons := [], Score := 0 } := by
  decide

/-! ### C10 -/

/-- C10 (implicit): the DKIM check reads only the first value stored
under the `DKIM-Signature` header key — when that first value does not
contain the From domain, the mismatch finding is produced even if a
later value does contain it. -/
theorem checkDKIM_first_value_only (email : Email) (domain v : String) (rest : List String)
    (hvals : email.GetAllHeaderValues "DKIM-Signature" = v :: rest)
    (hv : strContains v domain = false)
    (hlater : rest.any (fun w => strContains w domain) = true) :
    checkDKIM email domain = "DKIM signature domain doesn't match From domain" := by
  have hlk : email.headerLookup "DKIM-Signature" = some (v :: rest) := by
    unfold Email.GetAllHeaderValues at hvals
    cases hL : email.headerLookup "DKIM-Signature" with
    | none =>
      rw [hL] at hvals
      simp at hvals
    | some l =>
      rw [hL] at hvals
      simp at hvals
      rw [hvals]
  unfold checkDKIM Email.HasHeader Email.GetHeaderValue
  rw [hlk]
  simp [hv]

/-- An email carrying two DKIM-Signature values where only the second
contains the domain `example.com`. -/
def emailTwoDkim : Email :=
  { From := some { Name := "", Address := "user@example.com" }
  , ReplyTo := none
  , ReturnPath := ""
  , MessageID := ""
  , Subject := ""
  , Body := ""
  , Headers := [("DKIM-Signature", ["v=1; d=attacker.example", "v=1; d=example.com"])] }

/-- Witness for C10 on `emailTwoDkim` with domain `example.com`. -/
theorem checkDKIM_first_value_only_witness :
    checkDKIM emailTwoDkim "example.com" = "DKIM signature domain doesn't match From domain" :=
  checkDKIM_first_value_only emailTwoDkim "example.com" "v=1; d=attacker.example"
    ["v=1; d=example.com"] (by decide) (by decide) (by decide)
